import Mathlib

/-!
Verification of the event-pipeline repository (parts 1–4) against its
natural-language specification.  The Python/SQL sources are shallowly
embedded as executable Lean definitions:

* payload values (parsed JSON) become the inductive type JVal;
* pandas/DuckDB columns become Option-valued record fields (SQL NULL and
  pandas NaN are both modelled as none);
* monetary amounts and rates are exact rationals;
* timestamps are integer milliseconds since an arbitrary UTC origin, so
  that the DuckDB datediff with second granularity is integer division by
  1000 and DATE truncation is integer division by 86400000.

Definition names follow the source (clean_and_analyze.py,
business_analysis.py, monitoring.py) wherever the Lean lexer allows it.
-/

namespace Pipeline

/-- Parsed JSON payload values, the result type of safe_json_parse in
clean_and_analyze.py. -/
inductive JVal where
  | null
  | bool (b : Bool)
  | num (q : ℚ)
  | str (s : String)
  | arr (xs : List JVal)
  | obj (fields : List (String × JVal))

/-- Dictionary lookup inside a parsed payload object (Python dicts have
unique keys; we take the first binding). -/
def jlookup : List (String × JVal) → String → Option JVal
  | [], _ => none
  | (k1, v) :: fs, k => if k1 = k then some v else jlookup fs k

/-- Digit-string to natural number; none when a non-digit occurs or the
list is empty. -/
def parseDigitsAux : List Char → Nat → Option Nat
  | [], acc => some acc
  | c :: cs, acc =>
      if c.isDigit then parseDigitsAux cs (acc * 10 + (c.toNat - 48)) else none

def parseDigits : List Char → Option Nat
  | [] => none
  | cs => parseDigitsAux cs 0

/-- Unsigned decimal numeral, with an optional fractional part, as accepted
by Python float() (scientific notation, underscores, inf and nan are not
modelled; no claim exercises them). -/
def parseUnsigned (cs : List Char) : Option ℚ :=
  match cs.splitOn '.' with
  | [ip] => (parseDigits ip).map (fun n => (n : ℚ))
  | [ip, fp] =>
      if ip.isEmpty && fp.isEmpty then none
      else
        match (if ip.isEmpty then some 0 else parseDigits ip),
              (if fp.isEmpty then some 0 else parseDigits fp) with
        | some n, some f => some ((n : ℚ) + (f : ℚ) / ((10 : ℚ) ^ fp.length))
        | _, _ => none
  | _ => none

/-- Decimal numeral with optional sign and surrounding whitespace. -/
def parseRat (s : String) : Option ℚ :=
  match s.trim.toList with
  | '-' :: rest => (parseUnsigned rest).map (fun q => -q)
  | '+' :: rest => parseUnsigned rest
  | cs => parseUnsigned cs

/-- Python float(v) applied to a payload value: numbers pass through,
booleans become 0/1, numeric strings are parsed, everything else raises
(modelled as none).  pandas to_numeric with errors coerce has the same
success cases, with failures becoming NaN (also none here). -/
def pyFloat : JVal → Option ℚ
  | .num q => some q
  | .bool b => some (if b then 1 else 0)
  | .str s => parseRat s
  | _ => none

/-- Python truthiness of a payload value, as used by the a-or-b idiom in
clean_and_analyze.py. -/
def pyTruthy : JVal → Bool
  | .null => false
  | .bool b => b
  | .num q => decide (q ≠ 0)
  | .str s => decide (s ≠ "")
  | .arr xs => !xs.isEmpty
  | .obj fs => !fs.isEmpty

def isNull : JVal → Bool
  | .null => true
  | _ => false

/-- get_key(ed, key) from clean_and_analyze.py: dictionary member access,
none when the payload is not a dict or lacks the key. -/
def get_key (ed : Option JVal) (k : String) : Option JVal :=
  match ed with
  | some (.obj fs) => jlookup fs k
  | _ => none

/-- First key of the given list present in the dict (the loop order of
extract_price). -/
def firstPresent (fs : List (String × JVal)) : List String → Option JVal
  | [] => none
  | k :: ks =>
      match jlookup fs k with
      | some v => some v
      | none => firstPresent fs ks

/-- extract_price from clean_and_analyze.py: the first of the keys price,
total, revenue, amount, value that is present is converted with float();
a conversion failure returns none without trying later keys. -/
def extract_price (ed : Option JVal) : Option ℚ :=
  match ed with
  | some (.obj fs) =>
      (firstPresent fs ["price", "total", "revenue", "amount", "value"]).bind pyFloat
  | _ => none

/-- The values collected from items entries that are dicts containing the
key, as in extract_from_items; none when ed is not a dict, items is absent,
not a list, empty, or no item carries the key. -/
def itemsValues (ed : Option JVal) (key : String) : Option (List JVal) :=
  match ed with
  | some (.obj fs) =>
      match jlookup fs "items" with
      | some (.arr items) =>
          if items.isEmpty then none
          else
            match items.filterMap (fun it =>
                match it with
                | .obj m => jlookup m key
                | _ => none) with
            | [] => none
            | v :: vs => some (v :: vs)
      | _ => none
  | _ => none

/-- extract_from_items from clean_and_analyze.py.  For the numeric keys
quantity, price, total it sums float(v) over the non-null collected values
(the empty sum is 0, matching the Python sum of an empty generator); a float
failure raises, modelled as none.  For identifier keys it returns the first
collected value. -/
def extract_from_items (ed : Option JVal) (key : String) : Option (ℚ ⊕ JVal) :=
  (itemsValues ed key).bind (fun vals =>
    if key == "quantity" || key == "price" || key == "total" then
      let nn := vals.filter (fun v => !isNull v)
      if (nn.map pyFloat).all (fun o => o.isSome) then
        some (.inl ((nn.filterMap pyFloat).sum))
      else none
    else (vals.head?).map .inr)

/-- The numeric result of extract_from_items, used for unit price. -/
def priceFromItems (ed : Option JVal) : Option ℚ :=
  match extract_from_items ed "price" with
  | some (.inl q) => some q
  | _ => none

/-- events unit_price column: extract_price(ed) or extract_from_items(ed,
price).  the Python or operator falls through when the left value is falsy, so a
unit price of exactly 0.0 defers to the items sum. -/
def unit_price (ed : Option JVal) : Option ℚ :=
  match extract_price ed with
  | some p => if p = 0 then priceFromItems ed else some p
  | none => priceFromItems ed

/-- events quantity column before to_numeric: get_key(ed, quantity) or
extract_from_items(ed, quantity); the left branch wins only when truthy. -/
def quantity_field (ed : Option JVal) : Option (ℚ ⊕ JVal) :=
  match get_key ed "quantity" with
  | some v => if pyTruthy v then some (.inr v) else extract_from_items ed "quantity"
  | none => extract_from_items ed "quantity"

/-- pandas to_numeric with errors coerce over the mixed quantity column. -/
def to_numeric_mixed : Option (ℚ ⊕ JVal) → Option ℚ
  | some (.inl q) => some q
  | some (.inr v) => pyFloat v
  | none => none

/-- events total column: to_numeric(unit_price) * to_numeric(quantity),
with NaN propagation (none when either factor is none). -/
def total (ed : Option JVal) : Option ℚ :=
  match unit_price ed, to_numeric_mixed (quantity_field ed) with
  | some p, some q => some (p * q)
  | _, _ => none

/-!
Pre-parse rows and the Deduplicator (clean_and_analyze.py step 2.3).
-/

/-- One combined-CSV row at the point where drop_duplicates runs: all
columns are still raw strings (missing cells are none).  event_name has
already been stripped, remapped and empty-replaced-by-none (step 2.1),
timestamp and event_data are the pre-parse representations. -/
structure RawEvent where
  source_file : String := ""
  timestamp : Option String := none
  event_name : Option String := none
  event_data : Option String := none
  page_url : Option String := none
  referrer : Option String := none
  client_id : Option String := none
  user_agent : Option String := none
deriving DecidableEq

/-- The seven columns of DUP_SUBSET, as a record so that key equality is
componentwise equality. -/
structure DupKey where
  source_file : String
  timestamp : Option String
  event_name : Option String
  event_data : Option String
  page_url : Option String
  referrer : Option String
  client_id : Option String
deriving DecidableEq

/-- The duplicate key actually used by the code: DUP_SUBSET lists seven
columns, all of which exist at that point in the frame. -/
def dupKey (e : RawEvent) : DupKey :=
  ⟨e.source_file, e.timestamp, e.event_name, e.event_data, e.page_url,
    e.referrer, e.client_id⟩

/-- The four-column key named by the specification text (source_file,
raw timestamp string, event name, raw payload string). -/
def dupKeySpec4 (e : RawEvent) :
    String × Option String × Option String × Option String :=
  (e.source_file, e.timestamp, e.event_name, e.event_data)

/-- pandas drop_duplicates keep first, as a scan carrying the set of keys
already seen. -/
def dropDupsAux {κ : Type} [DecidableEq κ] (key : RawEvent → κ)
    (seen : List κ) : List RawEvent → List RawEvent
  | [] => []
  | e :: es =>
      if key e ∈ seen then dropDupsAux key seen es
      else e :: dropDupsAux key (key e :: seen) es

/-- events.drop_duplicates(subset=DUP_SUBSET, keep="first"). -/
def drop_duplicates (l : List RawEvent) : List RawEvent :=
  dropDupsAux dupKey [] l

/-- Specification-side description of keep-first deduplication: keep the
head and delete every later row with the same key, recursively. -/
def keepFirstBy {κ : Type} [DecidableEq κ] (key : RawEvent → κ) :
    List RawEvent → List RawEvent
  | [] => []
  | e :: es => e :: keepFirstBy key (es.filter (fun x => key x ≠ key e))
termination_by l => l.length
decreasing_by
  simp only [List.length_cons]
  exact Nat.lt_succ_of_le (List.length_filter_le _ _)

/-!
Cleaned, enriched events (the analytics_events_enriched view of
clean_and_analyze.py, equally the events_enriched view of
business_analysis.py and the events_enriched table of monitoring.py).
-/

/-- One cleaned event row.  timestamp_utc is milliseconds since a fixed
UTC origin (none for unparseable timestamps, pandas NaT / SQL NULL). -/
structure Event where
  source_file : String := ""
  client_id : Option String := none
  timestamp_utc : Option Nat := none
  event_name : Option String := none
  event_data : Option String := none
  event_data_parsed : Option JVal := none
  page_url : Option String := none
  user_agent : Option String := none
  utm_source : Option String := none
  utm_medium : Option String := none
  utm_campaign : Option String := none
  price : Option ℚ := none
  total : Option ℚ := none
  quantity : Option ℚ := none

/-!
Sessionization (the analytics_sessions view of clean_and_analyze.py and
the sessions_simple view of business_analysis.py; both use the same lag
plus flag plus running-sum construction with SESSION_GAP_SECONDS = 1800).
Timestamps below are the already-sorted, non-null timestamps of one
client_id partition, in milliseconds.
-/

/-- DuckDB datediff with second granularity counts second-boundary
crossings: both endpoints are truncated to whole seconds first. -/
def datediffSecond (a b : Nat) : Int :=
  (Int.ofNat (b / 1000)) - (Int.ofNat (a / 1000))

/-- The CASE expression computing new_session_flag for a row whose lag
predecessor exists. -/
def newSessionFlag (prev cur : Nat) : Nat :=
  if 1800 < datediffSecond prev cur then 1 else 0

def flagsAux (prev : Nat) : List Nat → List Nat
  | [] => []
  | t :: ts => newSessionFlag prev t :: flagsAux t ts

/-- new_session_flag column over one partition: the first row gets 1
(prev_ts IS NULL), later rows compare against their predecessor. -/
def newSessionFlags : List Nat → List Nat
  | [] => []
  | t :: ts => 1 :: flagsAux t ts

/-- Running sum (the windowed sum over ROWS UNBOUNDED PRECEDING TO
CURRENT ROW) with accumulator. -/
def prefixSums (acc : Nat) : List Nat → List Nat
  | [] => []
  | f :: fs => (acc + f) :: prefixSums (acc + f) fs

/-- session_seq column over one client_id partition: running sum of the
new-session flags. -/
def sessionSeqs (ts : List Nat) : List Nat :=
  prefixSums 0 (newSessionFlags ts)

/-!
Attribution (the analytics_purchase_attribution view of
clean_and_analyze.py and the purchase_attribution view of
business_analysis.py).
-/

/-- SQL WHERE comparing event_name with the purchase literal (NULL compares to false). -/
def isPurchase (e : Event) : Bool :=
  e.event_name == some "purchase"

/-- SQL equality of two nullable strings: NULL on either side is not a
match. -/
def sqlEqStr (a b : Option String) : Bool :=
  match a, b with
  | some x, some y => x == y
  | _, _ => false

/-- t.timestamp_utc BETWEEN p.timestamp_utc - INTERVAL 7 days AND
p.timestamp_utc; a NULL timestamp on either side fails the predicate.
Seven days is exactly 604800000 milliseconds. -/
def inWindow (p t : Event) : Bool :=
  match p.timestamp_utc, t.timestamp_utc with
  | some pts, some tts =>
      decide ((pts : Int) - 604800000 ≤ (tts : Int)) && decide ((tts : Int) ≤ (pts : Int))
  | _, _ => false

/-- The WHERE clause shared by all six correlated subqueries: same
client_id, inside the trailing 7-day window, and utm_source non-null. -/
def isCandidate (p t : Event) : Bool :=
  sqlEqStr t.client_id p.client_id && inWindow p t && t.utm_source.isSome

def candidates (events : List Event) (p : Event) : List Event :=
  events.filter (fun t => isCandidate p t)

/-- ORDER BY timestamp ASC LIMIT 1 over a candidate list (ties between
equal timestamps are resolved arbitrarily by SQL; we keep the earliest
list element). -/
def minByTs (l : List Event) : Option Event :=
  l.foldl (fun acc t =>
    match acc with
    | none => some t
    | some a => if t.timestamp_utc.getD 0 < a.timestamp_utc.getD 0 then some t else acc)
    none

/-- ORDER BY timestamp DESC LIMIT 1 over a candidate list. -/
def maxByTs (l : List Event) : Option Event :=
  l.foldl (fun acc t =>
    match acc with
    | none => some t
    | some a => if a.timestamp_utc.getD 0 < t.timestamp_utc.getD 0 then some t else acc)
    none

def firstTouchRow (events : List Event) (p : Event) : Option Event :=
  minByTs (candidates events p)

def lastTouchRow (events : List Event) (p : Event) : Option Event :=
  maxByTs (candidates events p)

/-- One attributed purchase row: the purchase columns, the revenue
column, and the six touch columns. -/
structure AttributedPurchase where
  event : Event
  revenue : ℚ
  first_utm_source : Option String := none
  first_utm_medium : Option String := none
  first_utm_campaign : Option String := none
  last_utm_source : Option String := none
  last_utm_medium : Option String := none
  last_utm_campaign : Option String := none

/-- One row of analytics_purchase_attribution (clean_and_analyze.py):
revenue is COALESCE(total, 0.0). -/
def attributeOne (events : List Event) (p : Event) : AttributedPurchase :=
  { event := p
    revenue := p.total.getD 0
    first_utm_source := (firstTouchRow events p).bind (fun t => t.utm_source)
    first_utm_medium := (firstTouchRow events p).bind (fun t => t.utm_medium)
    first_utm_campaign := (firstTouchRow events p).bind (fun t => t.utm_campaign)
    last_utm_source := (lastTouchRow events p).bind (fun t => t.utm_source)
    last_utm_medium := (lastTouchRow events p).bind (fun t => t.utm_medium)
    last_utm_campaign := (lastTouchRow events p).bind (fun t => t.utm_campaign) }

/-- analytics_purchase_attribution: every purchase row of the enriched
feed, attributed. -/
def analytics_purchase_attribution (events : List Event) : List AttributedPurchase :=
  (events.filter isPurchase).map (attributeOne events)

/-- One row of purchase_attribution (business_analysis.py): identical
except that revenue is COALESCE(price, total, 0.0). -/
def attributeOneP3 (events : List Event) (p : Event) : AttributedPurchase :=
  { event := p
    revenue := p.price.getD (p.total.getD 0)
    first_utm_source := (firstTouchRow events p).bind (fun t => t.utm_source)
    first_utm_medium := (firstTouchRow events p).bind (fun t => t.utm_medium)
    first_utm_campaign := (firstTouchRow events p).bind (fun t => t.utm_campaign)
    last_utm_source := (lastTouchRow events p).bind (fun t => t.utm_source)
    last_utm_medium := (lastTouchRow events p).bind (fun t => t.utm_medium)
    last_utm_campaign := (lastTouchRow events p).bind (fun t => t.utm_campaign) }

/-- purchase_attribution view of business_analysis.py. -/
def purchase_attribution (events : List Event) : List AttributedPurchase :=
  (events.filter isPurchase).map (attributeOneP3 events)

/-- The raw_revenue reconciliation query of clean_and_analyze.py step 4:
COALESCE(SUM(COALESCE(total, 0.0)), 0) over enriched purchase rows. -/
def raw_revenue (events : List Event) : ℚ :=
  ((events.filter isPurchase).map (fun e => e.total.getD 0)).sum

/-- The attrib_revenue reconciliation query: COALESCE(SUM(revenue), 0)
over the attribution view. -/
def attrib_revenue (events : List Event) : ℚ :=
  ((analytics_purchase_attribution events).map (fun a => a.revenue)).sum

/-!
Device classification (the analytics_events_with_device view of
clean_and_analyze.py and the identical CASE in SQL_REVENUE_BY_DEVICE of
business_analysis.py).
-/

/-- Whether the first character list is an initial segment of the
second. -/
def startsWithChars : List Char → List Char → Bool
  | [], _ => true
  | _ :: _, [] => false
  | p :: ps, c :: cs => p == c && startsWithChars ps cs

/-- Whether the first character list occurs contiguously inside the
second. -/
def hasSubstrChars (pat : List Char) : List Char → Bool
  | [] => startsWithChars pat []
  | c :: cs => startsWithChars pat (c :: cs) || hasSubstrChars pat cs

/-- lower(user_agent) LIKE the pattern surrounded by percent signs: the
lowercase pattern occurs as a substring of the lowercased user agent. -/
def uaHas (u pat : String) : Bool :=
  hasSubstrChars pat.toList (u.toList.map Char.toLower)

/-- The device_type CASE expression; a NULL user agent satisfies no LIKE
branch and falls to the ELSE. -/
def device_type : Option String → String
  | none => "unknown"
  | some u =>
      if uaHas u "ipad" then "tablet"
      else if uaHas u "iphone" then "mobile"
      else if uaHas u "android" && uaHas u "mobile" then "mobile"
      else if uaHas u "android" then "tablet"
      else if uaHas u "mobile" then "mobile"
      else if uaHas u "windows" || uaHas u "macintosh" || uaHas u "x11" then "desktop"
      else "unknown"

/-!
The drift monitor (monitoring.py).  Thresholds: BASELINE_DAYS = 7,
MAX_NULL_CLIENT_RATE = 0.20, MAX_DUP_RATE = 0.001, MAX_JSON_ERROR_RATE =
0.01, MAX_DIRECT_SHARE = 0.80, MAX_REV_DROP = 0.40.  Calendar days are
modelled as the integer quotient of the millisecond timestamp by
86400000 (DATE truncation of a UTC timestamp).
-/

inductive Severity where
  | WARN
  | CRITICAL
deriving DecidableEq

/-- The distinct alert messages monitoring.py can emit, carrying the
rates interpolated into the Python format strings. -/
inductive AlertMsg where
  | noEvents
  | noPurchases
  | highNullClient (rate : ℚ)
  | highDupRate (rate : ℚ)
  | highJsonError (rate : ℚ)
  | revenueDrop (latest baseline : ℚ)
  | highDirectShare (share : ℚ)
deriving DecidableEq

/-- The JSON report written by monitoring.py; the date string is
abstracted to the day number. -/
structure Report where
  date : Nat
  alerts : List (Severity × AlertMsg)
  status : String
deriving DecidableEq

/-- MAX(DATE(timestamp_utc)) over events_enriched: NULL timestamps are
ignored; none when no non-null timestamp exists. -/
def dataToday (events : List Event) : Option Nat :=
  ((events.filterMap (fun e => e.timestamp_utc)).map (fun t => t / 86400000)).max?

/-- AVG(CASE WHEN client_id IS NULL THEN 1 ELSE 0 END); only evaluated on
a nonempty table (the empty table raises earlier). -/
def nullClientRate (events : List Event) : ℚ :=
  ((events.countP (fun e => e.client_id.isNone)) : ℚ) / (events.length : ℚ)

/-- The duplicate-group key of the monitor (note: parsed timestamp, not the
pandas-stage raw key). -/
def monKey (e : Event) : Option Nat × Option String × Option String × String :=
  (e.timestamp_utc, e.event_name, e.event_data, e.source_file)

/-- Share of duplicate groups: groups with more than one row divided by
the number of groups. -/
def dupRate (events : List Event) : ℚ :=
  let keys := (events.map monKey).dedup
  ((keys.countP (fun k => 1 < (events.map monKey).count k)) : ℚ) / (keys.length : ℚ)

/-- AVG(CASE WHEN event_data IS NOT NULL AND event_data_parsed IS NULL
THEN 1 ELSE 0 END). -/
def jsonErrorRate (events : List Event) : ℚ :=
  ((events.countP (fun e => e.event_data.isSome && e.event_data_parsed.isNone)) : ℚ) /
    (events.length : ℚ)

/-- Insert into a descending-sorted list of days. -/
def insertDesc (x : Nat) : List Nat → List Nat
  | [] => [x]
  | y :: ys => if y < x then x :: y :: ys else y :: insertDesc x ys

def sortDesc (l : List Nat) : List Nat :=
  l.foldr insertDesc []

/-- The d column of the daily_rev frame: distinct DATE(timestamp_utc)
values over purchase rows, descending, with the NULL group (purchases
whose timestamp failed to parse) last. -/
def dailyRevDays (events : List Event) : List (Option Nat) :=
  let ds := ((events.filter isPurchase).map (fun e => e.timestamp_utc.map (fun t => t / 86400000))).dedup
  ((sortDesc (ds.filterMap id)).map some) ++ (if none ∈ ds then [none] else [])

/-- SUM(total) for one day group: SQL SUM skips NULL totals and is NULL
when every total in the group is NULL (a NaN cell in the frame). -/
def dayRevenue (events : List Event) (d : Option Nat) : Option ℚ :=
  let ts := (events.filter (fun e =>
      isPurchase e && (e.timestamp_utc.map (fun t => t / 86400000)) == d)).filterMap
      (fun e => e.total)
  if ts.isEmpty then none else some ts.sum

/-- The revenue-drop check: only runs when the daily frame has more than
BASELINE_DAYS rows; latest is row 0, the baseline is the pandas mean
(which skips NaN cells) of rows 1 through 7. -/
def revDropAlerts (events : List Event) : List (Severity × AlertMsg) :=
  let days := dailyRevDays events
  if 7 < days.length then
    ((days.head?.bind (dayRevenue events)).elim []
      (fun latest =>
        let baseVals := ((days.tail.take 7).map (dayRevenue events)).filterMap id
        if baseVals.isEmpty then []
        else
          let baseline := baseVals.sum / (baseVals.length : ℚ)
          if 0 < baseline ∧ (2 / 5 : ℚ) < (baseline - latest) / baseline then
            [(Severity.CRITICAL, AlertMsg.revenueDrop latest baseline)]
          else []))
  else []

/-- SUM(revenue) FILTER (last_utm_source coalesced to direct equals
direct) divided by SUM(revenue) over the purchases table; none for an
empty table or zero total (the Python truthiness test then skips the
alert either way). -/
def directShare (purchases : List AttributedPurchase) : Option ℚ :=
  let totalRev := (purchases.map (fun p => p.revenue)).sum
  let directRev := ((purchases.filter (fun p =>
      (p.last_utm_source.getD "direct") == "direct")).map (fun p => p.revenue)).sum
  if purchases.isEmpty then none
  else if totalRev = 0 then none
  else some (directRev / totalRev)

/-- The alerts list, appended in the order monitoring.py runs its
checks. -/
def mkAlerts (events : List Event) (purchases : List AttributedPurchase) :
    List (Severity × AlertMsg) :=
  (if events.length = 0 then [(Severity.CRITICAL, AlertMsg.noEvents)] else [])
  ++ (if events.countP (fun e => isPurchase e) = 0 then
        [(Severity.CRITICAL, AlertMsg.noPurchases)] else [])
  ++ (if (1 / 5 : ℚ) < nullClientRate events then
        [(Severity.WARN, AlertMsg.highNullClient (nullClientRate events))] else [])
  ++ (if (1 / 1000 : ℚ) < dupRate events then
        [(Severity.WARN, AlertMsg.highDupRate (dupRate events))] else [])
  ++ (if (1 / 100 : ℚ) < jsonErrorRate events then
        [(Severity.WARN, AlertMsg.highJsonError (jsonErrorRate events))] else [])
  ++ revDropAlerts events
  ++ ((directShare purchases).elim []
      (fun s => if (4 / 5 : ℚ) < s then [(Severity.WARN, AlertMsg.highDirectShare s)] else []))

/-- The report dict: status is FAIL when any alert is CRITICAL, else
PASS. -/
def buildReport (d : Nat) (alerts : List (Severity × AlertMsg)) : Report :=
  { date := d
    alerts := alerts
    status := if alerts.any (fun a => a.1 == Severity.CRITICAL) then "FAIL" else "PASS" }

/-- monitoring.py end to end: determining the monitoring date raises
ValueError when MAX(DATE(timestamp_utc)) is NULL (in particular on an
empty events table), before any check runs or any report is written. -/
def runMonitor (events : List Event) (purchases : List AttributedPurchase) :
    Except String Report :=
  (dataToday events).elim (.error "No data available to determine monitoring date")
    (fun d => .ok (buildReport d (mkAlerts events purchases)))

/-- Whether an alert message is the revenue-drop message. -/
def isRevenueDrop : AlertMsg → Bool
  | .revenueDrop _ _ => true
  | _ => false

/-!
Auxiliary lemmas about the sessionization columns.
-/

theorem flagsAux_length (prev : Nat) (ts : List Nat) :
    (flagsAux prev ts).length = ts.length := by
  induction ts generalizing prev with
  | nil => rfl
  | cons t ts ih => simp [flagsAux, ih]

theorem newSessionFlags_length (ts : List Nat) :
    (newSessionFlags ts).length = ts.length := by
  cases ts with
  | nil => rfl
  | cons t ts => simp [newSessionFlags, flagsAux_length]

theorem prefixSums_length (acc : Nat) (fs : List Nat) :
    (prefixSums acc fs).length = fs.length := by
  induction fs generalizing acc with
  | nil => rfl
  | cons f fs ih => simp [prefixSums, ih]

theorem prefixSums_getD_succ (fs : List Nat) (acc i : Nat) (h : i + 1 < fs.length) :
    (prefixSums acc fs).getD (i + 1) 0 =
      (prefixSums acc fs).getD i 0 + fs.getD (i + 1) 0 := by
  induction fs generalizing acc i with
  | nil => simp at h
  | cons f fs ih =>
      cases i with
      | zero =>
          cases fs with
          | nil => simp at h
          | cons g gs => rfl
      | succ j =>
          have hj : j + 1 < fs.length := by
            simpa [List.length_cons] using Nat.lt_of_succ_lt_succ h
          simpa [prefixSums, List.getD_cons_succ] using ih (acc + f) j hj

theorem flagsAux_getD (ts : List Nat) (prev i : Nat) (h : i < ts.length) :
    (flagsAux prev ts).getD i 0 =
      newSessionFlag ((prev :: ts).getD i 0) (ts.getD i 0) := by
  induction ts generalizing prev i with
  | nil => simp at h
  | cons t ts ih =>
      cases i with
      | zero => rfl
      | succ j =>
          have hj : j < ts.length := Nat.lt_of_succ_lt_succ h
          simpa [flagsAux, List.getD_cons_succ] using ih t j hj

theorem newSessionFlags_getD_succ (ts : List Nat) (i : Nat) (h : i + 1 < ts.length) :
    (newSessionFlags ts).getD (i + 1) 0 =
      newSessionFlag (ts.getD i 0) (ts.getD (i + 1) 0) := by
  cases ts with
  | nil => simp at h
  | cons t rest =>
      have hr : i < rest.length := Nat.lt_of_succ_lt_succ h
      simpa [newSessionFlags, List.getD_cons_succ] using flagsAux_getD rest t i hr

/-!
Claim C4: session gap boundary.
-/

/-- C4 (counterexample).  Two events of one identity whose timestamps are
1800.001 seconds apart — milliseconds 0 and 1800001 — receive the same
session sequence number 1, because datediff with second granularity
truncates both endpoints to whole seconds and 1800 is not strictly greater
than 1800.  The claim asserts they land in different sessions. -/
theorem c4_counterexample : sessionSeqs [0, 1800001] = [1, 1] := by decide

/-- C4 (amended).  Two consecutive events of one identity share a session
exactly when the truncated-to-seconds difference of their timestamps is at
most 1800; in particular timestamps exactly 1800 seconds apart always
share a session, while timestamps 1800.001 seconds apart share one
whenever truncation hides the excess. -/
theorem c4_session_boundary (ts : List Nat) (i : Nat) (h : i + 1 < ts.length) :
    ((sessionSeqs ts).getD (i + 1) 0 = (sessionSeqs ts).getD i 0 ↔
      datediffSecond (ts.getD i 0) (ts.getD (i + 1) 0) ≤ 1800) := by
  have hf : i + 1 < (newSessionFlags ts).length := by
    rw [newSessionFlags_length]; exact h
  have h1 := prefixSums_getD_succ (newSessionFlags ts) 0 i hf
  rw [newSessionFlags_getD_succ ts i h] at h1
  simp only [sessionSeqs]
  rw [h1]
  unfold newSessionFlag
  split_ifs with hgap
  · constructor
    · intro hx; omega
    · intro hx; omega
  · constructor
    · intro hx; omega
    · intro hx; omega

/-- C4 (witness).  Timestamps exactly 1800 seconds apart (milliseconds 0
and 1800000): the boundary equivalence instantiated there. -/
theorem c4_session_boundary_witness :
    ((sessionSeqs [0, 1800000]).getD 1 0 = (sessionSeqs [0, 1800000]).getD 0 0 ↔
      datediffSecond (([0, 1800000] : List Nat).getD 0 0)
        (([0, 1800000] : List Nat).getD 1 0) ≤ 1800) :=
  c4_session_boundary [0, 1800000] 0 (by decide)

/-!
Claim C1: revenue reconciliation, and claim C5: per-purchase revenue.
-/

/-- C1 (confirmed).  For every event set, the sum of the revenue column of
analytics_purchase_attribution equals the sum of COALESCE(total, 0) over
the purchase rows of the enriched feed: the view keeps every purchase row
and computes revenue as COALESCE(total, 0), so the two reconciliation
queries of step 4 agree exactly. -/
theorem c1_revenue_reconciliation (events : List Event) :
    attrib_revenue events = raw_revenue events := by
  simp only [attrib_revenue, raw_revenue, analytics_purchase_attribution, List.map_map]
  rfl

/-- A purchase event carrying a payload price but no derivable total. -/
def priceOnlyPurchase : Event :=
  { event_name := some "purchase", client_id := some "c1", timestamp_utc := some 0,
    price := some 5 }

/-- C5 (counterexample).  A purchase with price 5 and null total is
attributed revenue 0 by analytics_purchase_attribution, not
coalesce(price, total, 0) = 5: the revenue of the view is COALESCE(total, 0.0)
and never consults the price column. -/
theorem c5_counterexample :
    (analytics_purchase_attribution [priceOnlyPurchase]).map (fun a => a.revenue) = [0] ∧
      priceOnlyPurchase.price.getD (priceOnlyPurchase.total.getD 0) = 5 ∧
      (0 : ℚ) ≠ 5 := by
  refine ⟨rfl, rfl, by norm_num⟩

/-- C5 (amended).  In analytics_purchase_attribution (part 2) the revenue
of every purchase is coalesce(total, 0); it is the part 3
purchase_attribution view whose revenue is coalesce(price, total, 0).  In
both views every purchase row is kept (revenue never resolves to exclusion):
the attribution output lists exactly the purchase rows, in order. -/
theorem c5_revenue_derivation (events : List Event) :
    ((analytics_purchase_attribution events).map (fun a => a.revenue) =
        (events.filter isPurchase).map (fun e => e.total.getD 0)) ∧
      ((purchase_attribution events).map (fun a => a.revenue) =
        (events.filter isPurchase).map (fun e => e.price.getD (e.total.getD 0))) ∧
      (analytics_purchase_attribution events).length = (events.filter isPurchase).length ∧
      (purchase_attribution events).length = (events.filter isPurchase).length := by
  refine ⟨?_, ?_, ?_, ?_⟩ <;>
    simp only [analytics_purchase_attribution, purchase_attribution, List.map_map,
      List.length_map] <;> rfl

/-!
Claim C7: attribution window boundary.
-/

/-- C7 (confirmed).  For a purchase and a touch of the same identity with
non-null utm_source and parsed timestamps, the touch is a candidate of the
correlated attribution subqueries exactly when its timestamp lies in the
closed interval from purchase timestamp minus 7 days (604800000 ms) to the
purchase timestamp: the lower bound is inclusive, anything earlier is
excluded, and the upper bound includes the purchase instant itself. -/
theorem c7_window_boundary (p t : Event) (pts tts : Nat)
    (hp : p.timestamp_utc = some pts) (ht : t.timestamp_utc = some tts)
    (hid : sqlEqStr t.client_id p.client_id = true)
    (hutm : t.utm_source.isSome = true) :
    (isCandidate p t = true ↔
      ((pts : Int) - 604800000 ≤ (tts : Int) ∧ (tts : Int) ≤ (pts : Int))) := by
  simp [isCandidate, inWindow, hp, ht, hid, hutm]

def windowPurchase : Event :=
  { client_id := some "c1", timestamp_utc := some 604800000,
    event_name := some "purchase", total := some 30 }

def windowTouch : Event :=
  { client_id := some "c1", timestamp_utc := some 0, utm_source := some "adwords" }

/-- C7 (witness).  A touch exactly 7 days before the purchase is accepted
as a candidate. -/
theorem c7_window_boundary_witness : isCandidate windowPurchase windowTouch = true :=
  (c7_window_boundary windowPurchase windowTouch 604800000 0 rfl rfl rfl rfl).mpr
    (by decide)

/-!
Claim C6: the deduplication key.
-/

def dup_r1 : RawEvent :=
  { source_file := "events_20250101.csv", timestamp := some "2025-01-01T00:00:00Z",
    event_name := some "purchase", event_data := some "d1",
    page_url := some "https://shop.example/a", referrer := none, client_id := some "c1" }

def dup_r2 : RawEvent :=
  { dup_r1 with page_url := some "https://shop.example/b" }

/-- C6 (counterexample).  Two rows that agree on the 4-tuple named by the
claim — source file, raw timestamp string, event name, raw payload string —
but differ in page_url are both kept by drop_duplicates, because DUP_SUBSET
also contains page_url, referrer and client_id; the claim says the second
row would be removed. -/
theorem c6_counterexample :
    dupKeySpec4 dup_r1 = dupKeySpec4 dup_r2 ∧ dup_r1 ≠ dup_r2 ∧
      drop_duplicates [dup_r1, dup_r2] = [dup_r1, dup_r2] := by
  refine ⟨rfl, by decide, by decide⟩

theorem dropDupsAux_eq_keepFirst (key : RawEvent → DupKey) (l : List RawEvent)
    (seen : List DupKey) :
    dropDupsAux key seen l = keepFirstBy key (l.filter (fun e => decide (key e ∉ seen))) := by
  induction l generalizing seen with
  | nil => simp [dropDupsAux, keepFirstBy]
  | cons e es ih =>
      rw [List.filter_cons]
      by_cases hmem : key e ∈ seen
      · have hdec : decide (key e ∉ seen) = false := by simpa using hmem
        rw [hdec, if_neg (by simp), dropDupsAux, if_pos hmem]
        exact ih seen
      · have hdec : decide (key e ∉ seen) = true := by simpa using hmem
        rw [hdec, if_pos rfl, dropDupsAux, if_neg hmem, ih (key e :: seen), keepFirstBy]
        congr 1
        rw [List.filter_filter]
        congr 1
        apply List.filter_congr
        intro x hx
        by_cases hxe : key x = key e <;> by_cases hxs : key x ∈ seen <;>
          simp [hxe, hxs, List.mem_cons]

/-- C6 (amended).  The Deduplicator removes a row exactly when an earlier
row equals it on the 7-tuple of DUP_SUBSET — source_file, raw timestamp
string, event_name, raw payload string, page_url, referrer and client_id —
keeping the first occurrence of each duplicate group: drop_duplicates is
keep-first deduplication keyed on that 7-tuple. -/
theorem c6_dedup_key (l : List RawEvent) :
    drop_duplicates l = keepFirstBy dupKey l := by
  have h := dropDupsAux_eq_keepFirst dupKey l []
  simpa [drop_duplicates, List.filter_true] using h

/-!
Claim C9: sign of the derived total.
-/

/-- A parsed payload carrying a negative unit price. -/
def negPayload : Option JVal :=
  some (.obj [("price", .num (-5)), ("quantity", .num 1)])

/-- C9 (counterexample).  The cleaning stage derives total = -5 from the
payload with price -5 and quantity 1: no non-negativity is enforced, so a
canonical event with non-null negative total exists, contradicting the
claimed invariant. -/
theorem c9_counterexample : total negPayload = some (-5) ∧ ¬ (0 : ℚ) ≤ (-5 : ℚ) := by
  constructor
  · have h1 : unit_price negPayload = some (-5) := rfl
    have h2 : to_numeric_mixed (quantity_field negPayload) = some 1 := rfl
    unfold total
    rw [h1, h2]
    norm_num
  · norm_num

/-- C9 (amended).  The derived total is the product of the extracted unit
price and numeric quantity, and it is non-negative exactly when the
payload supplies non-negative factors; the cleaning stage applies no
clamp, so negative payload values produce negative non-null totals. -/
theorem c9_total_sign (ed : Option JVal) (p q : ℚ)
    (hp : unit_price ed = some p) (hq : to_numeric_mixed (quantity_field ed) = some q)
    (hp0 : 0 ≤ p) (hq0 : 0 ≤ q) :
    total ed = some (p * q) ∧ 0 ≤ p * q := by
  constructor
  · unfold total
    rw [hp, hq]
  · exact mul_nonneg hp0 hq0

/-- A parsed payload with non-negative price and quantity. -/
def posPayload : Option JVal :=
  some (.obj [("price", .num 5), ("quantity", .num 2)])

/-- C9 (witness).  A payload with price 5 and quantity 2 yields total 10,
which is non-negative. -/
theorem c9_total_sign_witness :
    total posPayload = some ((5 : ℚ) * 2) ∧ (0 : ℚ) ≤ (5 : ℚ) * 2 :=
  c9_total_sign posPayload 5 2 rfl rfl (by norm_num) (by norm_num)

/-!
Claim C10: device-type rules.
-/

/-- C10 (counterexample).  The user agent string "iPhone Android" contains
"android" and does not contain "mobile" (case-insensitively), yet the CASE
expression classifies it as mobile, not tablet, because the iphone rule is
checked before the android rules. -/
theorem c10_counterexample :
    device_type (some "iPhone Android") = "mobile" ∧
      uaHas "iPhone Android" "android" = true ∧
      uaHas "iPhone Android" "mobile" = false ∧
      ("mobile" : String) ≠ "tablet" := by
  refine ⟨by decide, by decide, by decide, by decide⟩

/-- C10 (amended).  The ordered rules: ipad anywhere gives tablet;
otherwise android with mobile gives mobile; android without mobile gives
tablet provided iphone is also absent (an iphone token wins first and
gives mobile); and a user agent containing none of the recognized tokens
is unknown. -/
theorem c10_device_rules (u : String) :
    (uaHas u "android" = true → uaHas u "mobile" = false → uaHas u "iphone" = false →
        device_type (some u) = "tablet") ∧
      (uaHas u "android" = true → uaHas u "mobile" = true → uaHas u "ipad" = false →
        device_type (some u) = "mobile") ∧
      (uaHas u "ipad" = true → device_type (some u) = "tablet") ∧
      (uaHas u "ipad" = false → uaHas u "iphone" = false → uaHas u "android" = false →
        uaHas u "mobile" = false → uaHas u "windows" = false →
        uaHas u "macintosh" = false → uaHas u "x11" = false →
        device_type (some u) = "unknown") := by
  refine ⟨?_, ?_, ?_, ?_⟩
  · intro ha hm hi
    cases hip : uaHas u "ipad" <;> simp [device_type, hip, ha, hm, hi]
  · intro ha hm hp
    simp [device_type, ha, hm, hp]
  · intro hp
    simp [device_type, hp]
  · intro h1 h2 h3 h4 h5 h6 h7
    simp [device_type, h1, h2, h3, h4, h5, h6, h7]

/-- C10 (witness).  The rules applied to the concrete user agents
"Android" (tablet) via the amended theorem. -/
theorem c10_device_rules_witness : device_type (some "Android") = "tablet" :=
  (c10_device_rules "Android").1 (by decide) (by decide) (by decide)

/-!
Monitor claims C2, C3 and C8.
-/

theorem runMonitor_ok_iff (ev : List Event) (pur : List AttributedPurchase) (r : Report) :
    runMonitor ev pur = .ok r ↔
      ∃ d, dataToday ev = some d ∧ r = buildReport d (mkAlerts ev pur) := by
  cases hd : dataToday ev with
  | none => simp [runMonitor, hd]
  | some d => simp [runMonitor, hd, eq_comm]

/-- C3 (code bug).  On an empty event table the monitor raises ValueError
while determining the monitoring date, before any check runs and before
any report is produced; the zero-row CRITICAL branch later in the script
is unreachable.  The claim (and the spec) requires a report with a
CRITICAL zero-row alert instead. -/
theorem c3_empty_input_raises :
    runMonitor [] [] = .error "No data available to determine monitoring date" := rfl

/-- C2 (amended).  The report status is FAIL exactly when some alert is
CRITICAL, and PASS otherwise — including runs whose alerts are all WARN;
the monitor never emits a WARN status. -/
theorem c2_status_rule (ev : List Event) (pur : List AttributedPurchase) (r : Report)
    (h : runMonitor ev pur = .ok r) :
    (r.status = "FAIL" ↔ ∃ a ∈ r.alerts, a.1 = Severity.CRITICAL) ∧
      (r.status = "PASS" ↔ ¬ ∃ a ∈ r.alerts, a.1 = Severity.CRITICAL) ∧
      r.status ≠ "WARN" := by
  obtain ⟨d, hd, hr⟩ := (runMonitor_ok_iff ev pur r).mp h
  subst hr
  by_cases hc : (mkAlerts ev pur).any (fun a => a.1 == Severity.CRITICAL) = true
  · have hex : ∃ a ∈ mkAlerts ev pur, a.1 = Severity.CRITICAL := by
      simpa using List.any_eq_true.mp hc
    simp only [buildReport, hc, if_pos]
    refine ⟨by simpa using hex, ?_, by decide⟩
    constructor
    · intro hfp
      exact absurd hfp (by decide)
    · intro hne
      exact absurd hex hne
  · have hnex : ¬ ∃ a ∈ mkAlerts ev pur, a.1 = Severity.CRITICAL := by
      intro ⟨a, ha, hcrit⟩
      exact hc (List.any_eq_true.mpr ⟨a, ha, by simpa using hcrit⟩)
    rw [Bool.not_eq_true] at hc
    simp only [buildReport, hc, Bool.false_eq_true, if_false]
    refine ⟨?_, by simpa using hnex, by decide⟩
    constructor
    · intro hfp
      exact absurd hfp (by decide)
    · intro hex
      exact absurd hex hnex

theorem all_notRevDrop_single (c : Prop) [Decidable c] (s : Severity) (m : AlertMsg)
    (hm : isRevenueDrop m = false) :
    (if c then [(s, m)] else []).all (fun a => !isRevenueDrop a.2) = true := by
  split_ifs <;> simp [hm]

theorem all_notRevDrop_direct (o : Option ℚ) :
    (o.elim []
        (fun s => if (4 / 5 : ℚ) < s then [(Severity.WARN, AlertMsg.highDirectShare s)]
          else [])).all (fun a => !isRevenueDrop a.2) = true := by
  cases o with
  | none => rfl
  | some s =>
      simp only [Option.elim]
      split_ifs <;> simp [isRevenueDrop]

/-- C8 (amended).  Whenever the daily-revenue frame has at most
BASELINE_DAYS rows, the report contains no revenue-drop alert: the check
is skipped silently, and nothing in the report marks it as skipped — the
report schema has no field or message distinguishing a skipped check from
a passed one. -/
theorem c8_skip_no_alert (ev : List Event) (pur : List AttributedPurchase) (r : Report)
    (h : runMonitor ev pur = .ok r) (hdays : (dailyRevDays ev).length ≤ 7) :
    r.alerts.all (fun a => !isRevenueDrop a.2) = true := by
  obtain ⟨d, hd, hr⟩ := (runMonitor_ok_iff ev pur r).mp h
  subst hr
  have hrev : revDropAlerts ev = [] := by
    simp only [revDropAlerts]
    rw [if_neg (Nat.not_lt.mpr hdays)]
  simp only [buildReport, mkAlerts, hrev, List.nil_append, List.append_nil,
    List.all_append, Bool.and_eq_true]
  refine ⟨⟨⟨⟨⟨?_, ?_⟩, ?_⟩, ?_⟩, ?_⟩, ?_⟩
  · exact all_notRevDrop_single _ _ _ rfl
  · exact all_notRevDrop_single _ _ _ rfl
  · exact all_notRevDrop_single _ _ _ rfl
  · exact all_notRevDrop_single _ _ _ rfl
  · exact all_notRevDrop_single _ _ _ rfl
  · exact all_notRevDrop_direct _

/-!
Concrete monitor runs.
-/

def warnEvents : List Event :=
  [ { source_file := "f.csv", client_id := none, timestamp_utc := some 1000,
      event_name := some "page_viewed" },
    { source_file := "f.csv", client_id := none, timestamp_utc := some 2000,
      event_name := some "page_viewed" },
    { source_file := "f.csv", client_id := some "c1", timestamp_utc := some 3000,
      event_name := some "page_viewed" },
    { source_file := "f.csv", client_id := some "c1", timestamp_utc := some 4000,
      event_name := some "page_viewed" },
    { source_file := "f.csv", client_id := some "c1", timestamp_utc := some 5000,
      event_name := some "purchase", total := some 10 } ]

def warnPurchaseEvent : Event :=
  { source_file := "f.csv", client_id := some "c1", timestamp_utc := some 5000,
    event_name := some "purchase", total := some 10 }

def warnPurchases : List AttributedPurchase :=
  [ { event := warnPurchaseEvent, revenue := 10, last_utm_source := some "google" } ]

/-- C2 (counterexample).  A run with exactly one alert, a WARN for a 40
percent null-identity rate and no CRITICAL alert, is reported with status
PASS, not WARN: the report never carries a WARN status. -/
theorem c2_counterexample :
    runMonitor warnEvents warnPurchases =
      .ok { date := 0,
            alerts := [(Severity.WARN, AlertMsg.highNullClient (2 / 5))],
            status := "PASS" } := by
  have hn : nullClientRate warnEvents = 2 / 5 := by
    have h1 : warnEvents.countP (fun e => e.client_id.isNone) = 2 := rfl
    have h2 : warnEvents.length = 5 := rfl
    rw [nullClientRate, h1, h2]
    norm_num
  have hdup : dupRate warnEvents = 0 := by
    have h1 : ((warnEvents.map monKey).dedup).countP
        (fun k => 1 < (warnEvents.map monKey).count k) = 0 := rfl
    simp only [dupRate]
    rw [h1]
    norm_num
  have hjson : jsonErrorRate warnEvents = 0 := by
    have h1 : warnEvents.countP
        (fun e => e.event_data.isSome && e.event_data_parsed.isNone) = 0 := rfl
    rw [jsonErrorRate, h1]
    norm_num
  have hrev : revDropAlerts warnEvents = [] := rfl
  have hds : directShare warnPurchases = some 0 := by
    have ht : (warnPurchases.map (fun p => p.revenue)).sum = 10 := by
      norm_num [warnPurchases, List.map_cons, List.map_nil, List.sum_cons, List.sum_nil]
    have hdr : ((warnPurchases.filter
        (fun p => (p.last_utm_source.getD "direct") == "direct")).map
          (fun p => p.revenue)).sum = 0 := rfl
    simp only [directShare, ht, hdr]
    norm_num [warnPurchases, List.isEmpty]
  have halerts : mkAlerts warnEvents warnPurchases =
      [(Severity.WARN, AlertMsg.highNullClient (2 / 5))] := by
    have hlen : warnEvents.length = 5 := rfl
    have hpc : warnEvents.countP (fun e => isPurchase e) = 1 := rfl
    rw [mkAlerts, hn, hdup, hjson, hrev, hds, hlen, hpc]
    norm_num [Option.elim]
  have hd : dataToday warnEvents = some 0 := rfl
  have hw : ((Severity.WARN, AlertMsg.highNullClient ((2 : ℚ) / 5)).1 ==
      Severity.CRITICAL) = false := rfl
  simp [runMonitor, hd, halerts, buildReport, hw]

def dayEventA : Event :=
  { source_file := "g.csv", client_id := some "c1", timestamp_utc := some 1000,
    event_name := some "purchase", total := some 100 }

def dayEventB : Event :=
  { source_file := "g.csv", client_id := some "c1", timestamp_utc := some 86401000,
    event_name := some "purchase", total := some 90 }

def dayEvents : List Event := [dayEventA, dayEventB]

def dayPurchases : List AttributedPurchase :=
  [ { event := dayEventA, revenue := 100, last_utm_source := some "google" },
    { event := dayEventB, revenue := 90, last_utm_source := some "google" } ]

/-- C8 (counterexample).  A run with only two distinct purchase days —
fewer than BASELINE_DAYS + 1 = 8 — produces a report whose alert list is
empty: the revenue-drop check is skipped, and the output contains no
"skipped: insufficient baseline" entry (nor anything else); a skipped
check is indistinguishable from a passed one, contradicting the claimed
explicit report. -/
theorem c8_counterexample :
    runMonitor dayEvents dayPurchases = .ok { date := 1, alerts := [], status := "PASS" } ∧
      (dailyRevDays dayEvents).length < 8 := by
  refine ⟨?_, by decide⟩
  have hn : nullClientRate dayEvents = 0 := by
    have h1 : dayEvents.countP (fun e => e.client_id.isNone) = 0 := rfl
    rw [nullClientRate, h1]
    norm_num
  have hdup : dupRate dayEvents = 0 := by
    have h1 : ((dayEvents.map monKey).dedup).countP
        (fun k => 1 < (dayEvents.map monKey).count k) = 0 := rfl
    simp only [dupRate]
    rw [h1]
    norm_num
  have hjson : jsonErrorRate dayEvents = 0 := by
    have h1 : dayEvents.countP
        (fun e => e.event_data.isSome && e.event_data_parsed.isNone) = 0 := rfl
    rw [jsonErrorRate, h1]
    norm_num
  have hrev : revDropAlerts dayEvents = [] := rfl
  have hds : directShare dayPurchases = some 0 := by
    have ht : (dayPurchases.map (fun p => p.revenue)).sum = 190 := by
      norm_num [dayPurchases, List.map_cons, List.map_nil, List.sum_cons, List.sum_nil]
    have hdr : ((dayPurchases.filter
        (fun p => (p.last_utm_source.getD "direct") == "direct")).map
          (fun p => p.revenue)).sum = 0 := rfl
    simp only [directShare, ht, hdr]
    norm_num [dayPurchases, List.isEmpty]
  have halerts : mkAlerts dayEvents dayPurchases = [] := by
    have hlen : dayEvents.length = 2 := rfl
    have hpc : dayEvents.countP (fun e => isPurchase e) = 2 := rfl
    rw [mkAlerts, hn, hdup, hjson, hrev, hds, hlen, hpc]
    norm_num [Option.elim]
  have hd : dataToday dayEvents = some 1 := rfl
  simp [runMonitor, hd, halerts, buildReport]

def tinyEvents : List Event :=
  [ { source_file := "t.csv", client_id := some "c1", timestamp_utc := some 1000,
      event_name := some "purchase", total := some 7 } ]

def tinyPurchases : List AttributedPurchase := []

def tinyReport : Report := { date := 0, alerts := [], status := "PASS" }

theorem tiny_run : runMonitor tinyEvents tinyPurchases = .ok tinyReport := by
  have hn : nullClientRate tinyEvents = 0 := by
    have h1 : tinyEvents.countP (fun e => e.client_id.isNone) = 0 := rfl
    rw [nullClientRate, h1]
    norm_num
  have hdup : dupRate tinyEvents = 0 := by
    have h1 : ((tinyEvents.map monKey).dedup).countP
        (fun k => 1 < (tinyEvents.map monKey).count k) = 0 := rfl
    simp only [dupRate]
    rw [h1]
    norm_num
  have hjson : jsonErrorRate tinyEvents = 0 := by
    have h1 : tinyEvents.countP
        (fun e => e.event_data.isSome && e.event_data_parsed.isNone) = 0 := rfl
    rw [jsonErrorRate, h1]
    norm_num
  have hrev : revDropAlerts tinyEvents = [] := rfl
  have hds : directShare tinyPurchases = none := rfl
  have halerts : mkAlerts tinyEvents tinyPurchases = [] := by
    have hlen : tinyEvents.length = 1 := rfl
    have hpc : tinyEvents.countP (fun e => isPurchase e) = 1 := rfl
    rw [mkAlerts, hn, hdup, hjson, hrev, hds, hlen, hpc]
    norm_num [Option.elim]
  have hd : dataToday tinyEvents = some 0 := rfl
  simp [runMonitor, hd, halerts, buildReport, tinyReport]

/-- C2 (witness).  The status rule instantiated on a concrete clean run. -/
theorem c2_status_rule_witness :
    (tinyReport.status = "FAIL" ↔ ∃ a ∈ tinyReport.alerts, a.1 = Severity.CRITICAL) ∧
      (tinyReport.status = "PASS" ↔ ¬ ∃ a ∈ tinyReport.alerts, a.1 = Severity.CRITICAL) ∧
      tinyReport.status ≠ "WARN" :=
  c2_status_rule tinyEvents tinyPurchases tinyReport tiny_run

/-- C8 (witness).  The no-revenue-drop-alert rule instantiated on a
concrete run with a single day of history. -/
theorem c8_skip_no_alert_witness :
    tinyReport.alerts.all (fun a => !isRevenueDrop a.2) = true :=
  c8_skip_no_alert tinyEvents tinyPurchases tinyReport tiny_run (by decide)

end Pipeline
